import Mathlib

/-!
# Verification of the reserva-facil-api workflow engine

A shallow embedding, in Lean 4, of the validation and workflow logic of
`src/main.py` (FastAPI endpoints over PostgreSQL), together with theorems
settling the specification claims about it.

Conventions of the embedding:
* Python `datetime.date` values become the `PyDate` structure; `date`
  comparison is lexicographic on (year, month, day), as in CPython.
* Python `Optional[str]` fields become `Option String`; Python truthiness
  of such a field (`if s:`) is `truthy`.
* The external PostgreSQL database becomes an explicit record of lists; a
  statement's effect is a pure function on that record.  `SELECT ... ORDER BY
  col DESC LIMIT 1` over strings is the lexicographic maximum (C collation).
* An endpoint body that may raise becomes a function into `Except PyError`;
  the `try/except/finally` skeleton of each endpoint is mirrored by an
  explicit `match` on the body's result, and the run result records whether
  `conn.rollback()` / `conn.commit()` / `conn.close()` were executed on the
  taken path.
-/

deriving instance DecidableEq for Except

namespace ReservaFacil

/-- Python truthiness of an `Optional[str]` value: `None` and `""` are falsy. -/
def truthy : Option String → Bool
  | none => false
  | some s => !(s == "")

/-- A calendar date, mirrors Python `datetime.date` (fields `year`, `month`, `day`). -/
structure PyDate where
  year : Nat
  month : Nat
  day : Nat
deriving DecidableEq

/-- Python `date < date`: lexicographic comparison on (year, month, day). -/
def dateLt (a b : PyDate) : Bool :=
  a.year < b.year ||
    (a.year == b.year && (a.month < b.month || (a.month == b.month && a.day < b.day)))

/-- Python tuple comparison `(m1, d1) < (m2, d2)` used by the age computation. -/
def mdLt (m1 d1 m2 d2 : Nat) : Bool :=
  m1 < m2 || (m1 == m2 && d1 < d2)

/-- Gregorian leap year, as implemented by Python `calendar`/`datetime`. -/
def isLeapYear (y : Nat) : Bool :=
  y % 4 == 0 && (y % 100 != 0 || y % 400 == 0)

/-- Number of days of month `m` of year `y` (Gregorian calendar). -/
def daysInMonth (y m : Nat) : Nat :=
  if m == 2 then (if isLeapYear y then 29 else 28)
  else if m == 4 || m == 6 || m == 9 || m == 11 then 30
  else 31

/-- `d` denotes an actual calendar date. -/
def ValidDate (d : PyDate) : Prop :=
  1 ≤ d.month ∧ d.month ≤ 12 ∧ 1 ≤ d.day ∧ d.day ≤ daysInMonth d.year d.month

instance (d : PyDate) : Decidable (ValidDate d) := by
  unfold ValidDate; infer_instance

/-- The calendar successor of a date (Python `date + timedelta(days=1)`). -/
def nextDay (d : PyDate) : PyDate :=
  if d.day < daysInMonth d.year d.month then ⟨d.year, d.month, d.day + 1⟩
  else if d.month < 12 then ⟨d.year, d.month + 1, 1⟩
  else ⟨d.year + 1, 1, 1⟩

/-- Same month and day, `n` years earlier. -/
def minusYears (d : PyDate) (n : Nat) : PyDate :=
  ⟨d.year - n, d.month, d.day⟩

/-! ## `PedidoCreate.check_dates` (src/main.py lines 48-55) -/

/-- Request-creation input, mirrors the Pydantic model `PedidoCreate`. -/
structure PedidoCreate where
  nomeeventoproposto : Option String := none
  localproposto : Option String := none
  datainicioproposto : Option PyDate := none
  datafimproposto : Option PyDate := none
  descricao : Option String := none
  usuario : String
deriving DecidableEq

/-- Mirrors `PedidoCreate.check_dates`: the Pydantic `model_validator` for the
request dates.  `today` stands for `date.today()`. -/
def check_dates (today : PyDate) (p : PedidoCreate) : Except String PedidoCreate :=
  -- if self.datainicioproposto and self.datainicioproposto < date.today():
  if p.datainicioproposto.elim false (fun di => dateLt di today) then
    .error "A data de início não pode ser no passado."
  -- if self.datainicioproposto and self.datafimproposto and self.datafimproposto < self.datainicioproposto:
  else if p.datainicioproposto.elim false
      (fun di => p.datafimproposto.elim false (fun df => dateLt df di)) then
    .error "A data de fim deve ser após a data de início."
  else
    .ok p

/-! ## `UsuarioCreate.check_fields` (src/main.py lines 67-111) -/

/-- User-creation input, mirrors the Pydantic model `UsuarioCreate`.
The `email` field is validated separately by Pydantic's `EmailStr` and plays
no role in `check_fields`. -/
structure UsuarioCreate where
  ndoc : String
  tipodoc : String
  email : String
  nome : Option String := none
  datanasc : Option PyDate := none
  rg : Option String := none
  razaosocial : Option String := none
deriving DecidableEq

/-- `re.sub(r'\D', '', s)`: the digit characters of `s`, in order. -/
def digitsOnly (s : String) : List Char :=
  s.toList.filter Char.isDigit

/-- The age computed at src/main.py line 107:
`today.year - nasc.year - ((today.month, today.day) < (nasc.month, nasc.day))`. -/
def idade (today nasc : PyDate) : Int :=
  (today.year : Int) - (nasc.year : Int) -
    (if mdLt today.month today.day nasc.month nasc.day then 1 else 0)

/-- Mirrors the age validation at src/main.py lines 103-109 (step 3 of
`check_fields`): when a birth date is present, the computed age must be ≥ 18. -/
def check_age (today : PyDate) (datanasc : Option PyDate) : Except String Unit :=
  match datanasc with
  | none => .ok ()
  | some nasc =>
      if idade today nasc < 18 then .error "Usuário deve ter pelo menos 18 anos."
      else .ok ()

/-- Mirrors `UsuarioCreate.check_fields`: document-type, document-digit,
conditional-field, RG and age validation, in source order.  `today` stands for
`date.today()`. -/
def check_fields (today : PyDate) (u : UsuarioCreate) : Except String UsuarioCreate :=
  -- 1. if tipodoc not in ['CPF', 'CNPJ']:
  if !(u.tipodoc == "CPF" || u.tipodoc == "CNPJ") then
    .error "Tipo de documento deve ser CPF ou CNPJ."
  else
    -- 2. digits_only_ndoc = re.sub(r'\D', '', ndoc)
    let digits_only_ndoc := digitsOnly u.ndoc
    if u.tipodoc == "CPF" then
      if digits_only_ndoc.length != 11 then .error "CPF deve conter 11 dígitos."
      else if !truthy u.nome then .error "Nome é obrigatório para CPF."
      else if truthy u.rg &&
          !(decide (7 ≤ (digitsOnly (u.rg.getD "")).length ∧
                    (digitsOnly (u.rg.getD "")).length ≤ 9)) then
        .error "RG deve conter entre 7 e 9 dígitos."
      else
        match check_age today u.datanasc with
        | .error e => .error e
        | .ok _ => .ok u
    else
      if digits_only_ndoc.length != 14 then .error "CNPJ deve conter 14 dígitos."
      else if !truthy u.razaosocial then .error "Razão Social é obrigatória para CNPJ."
      else
        match check_age today u.datanasc with
        | .error e => .error e
        | .ok _ => .ok u

/-- The CPF success conditions of `check_fields`: document type CPF, exactly
11 digits after stripping, non-empty name. -/
def cpfOk (u : UsuarioCreate) : Prop :=
  u.tipodoc = "CPF" ∧ (digitsOnly u.ndoc).length = 11 ∧ truthy u.nome = true

/-- The CNPJ success conditions of `check_fields`: document type CNPJ, exactly
14 digits after stripping, non-empty company name. -/
def cnpjOk (u : UsuarioCreate) : Prop :=
  u.tipodoc = "CNPJ" ∧ (digitsOnly u.ndoc).length = 14 ∧ truthy u.razaosocial = true

/-- The RG side condition of `check_fields` for CPF users: when an RG is
supplied, it has 7 to 9 digits after stripping. -/
def rgOk (u : UsuarioCreate) : Prop :=
  truthy u.rg = true →
    7 ≤ (digitsOnly (u.rg.getD "")).length ∧ (digitsOnly (u.rg.getD "")).length ≤ 9

/-! ## Sequential request-id generation (src/main.py lines 244-259) -/

/-- The string `f"PED-{year}-"`. -/
def idHead (year : Nat) : String :=
  "PED-" ++ toString year ++ "-"

/-- `id LIKE 'PED-{year}-%'`: the id starts with the year's head. -/
def likeHead (year : Nat) (s : String) : Bool :=
  (idHead year).toList.isPrefixOf s.toList

/-- Lexicographic order on character lists by codepoint, the order PostgreSQL
uses for `ORDER BY` on these ASCII ids (C collation). -/
def charListLt : List Char → List Char → Bool
  | [], [] => false
  | [], _ :: _ => true
  | _ :: _, [] => false
  | a :: as, b :: bs =>
      if a.toNat < b.toNat then true
      else if b.toNat < a.toNat then false
      else charListLt as bs

/-- String comparison by codepoint. -/
def strLt (a b : String) : Bool :=
  charListLt a.toList b.toList

/-- `SELECT IDPEDIDO FROM PEDIDO WHERE IDPEDIDO LIKE 'PED-{year}-%' ORDER BY
IDPEDIDO DESC LIMIT 1`: the lexicographically greatest stored id with the
year's head (string comparison, C collation), if any. -/
def maxMatchingId (year : Nat) (ids : List String) : Option String :=
  (ids.filter (likeHead year)).foldl
    (fun acc s =>
      match acc with
      | none => some s
      | some m => if strLt m s then some s else some m)
    none

/-- Python `int(s)` for a string of decimal digits. -/
def pyIntDigits (s : String) : Nat :=
  s.toList.foldl (fun n c => n * 10 + (c.toNat - 48)) 0

/-- Python `s.split('-')[-1]`: the characters after the last `-`. -/
def lastDashField (s : String) : String :=
  ⟨(s.toList.reverse.takeWhile (fun c => !(c == '-'))).reverse⟩

/-- Python `f"{n:03d}"` for a nonnegative `n`: zero-pad to at least 3 digits. -/
def pad3 (n : Nat) : String :=
  if n < 10 then "00" ++ toString n
  else if n < 100 then "0" ++ toString n
  else toString n

/-- Mirrors the id-generation logic of `create_pedido` (src/main.py lines
244-259): fetch the greatest stored id for the year by string order, parse the
suffix after the last `-`, add 1 (or start at 1 when none exists), and format
as `f"PED-{year}-{n:03d}"`. -/
def next_idpedido (year : Nat) (ids : List String) : String :=
  match maxMatchingId year ids with
  | some last_id => idHead year ++ pad3 (pyIntDigits (lastDashField last_id) + 1)
  | none => idHead year ++ pad3 1

/-! ## Exceptions and run results

The endpoints raise `HTTPException(status_code, detail)` for expected errors;
the psycopg2 driver raises its own exception classes (here `storageErr`) for
storage-level failures.  Which `except` clauses an endpoint has determines
which of these are intercepted. -/

/-- A Python exception as seen by the endpoints' `except` clauses. -/
inductive PyError where
  /-- `fastapi.HTTPException(status_code, detail)`. -/
  | httpExc (code : Nat) (detail : String)
  /-- a psycopg2 / unexpected runtime error that is not an `HTTPException`. -/
  | storageErr (msg : String)
deriving DecidableEq

/-! ## Item inventory (src/main.py lines 113-120, 351-549) -/

/-- A row of the `ITEM` table (joined with its resource type and warehouse).
`statusitem` and `qualidade` are nullable columns; `armazem` is a nullable
foreign key.  `tamanho` is a numeric column; no claim depends on its
arithmetic, so it is carried as an uninterpreted `Int`. -/
structure Item where
  nropatrimonio : String
  statusitem : Option String := some "Disponível"
  qualidade : Option String := none
  tamanho : Int := 0
  tiporecursofisico : String
  armazem : Option String := none
deriving DecidableEq

/-- The slice of the database state that the item endpoints touch. -/
structure ItemDb where
  /-- ids of the `TIPORECURSOFISICO` table. -/
  tiposRecurso : List String
  /-- ids of the `ARMAZEM` table. -/
  armazens : List String
  /-- rows of the `ITEM` table. -/
  itens : List Item
  /-- patrimony numbers referenced by rows of the allocation table. -/
  alocacoes : List String
deriving DecidableEq

/-- `SELECT NROPATRIMONIO FROM ITEM WHERE NROPATRIMONIO = %s` returned a row. -/
def itemExists (db : ItemDb) (n : String) : Bool :=
  db.itens.any (fun i => i.nropatrimonio == n)

/-- Item-creation input, mirrors the Pydantic model `ItemCreate`. -/
structure ItemCreate where
  nropatrimonio : String
  statusitem : Option String := some "Disponível"
  qualidade : Option String := none
  tamanho : Int := 0
  tiporecursofisico : String
  armazem : Option String := none
deriving DecidableEq

/-- Result of running a write endpoint: the value returned or exception
propagated to the caller, and which connection-management calls the taken
path executed. -/
structure WriteResult where
  outcome : Except PyError String
  rolledBack : Bool
  committed : Bool
  connClosed : Bool
deriving DecidableEq

/-- Mirrors `create_item` (src/main.py lines 351-399).  `insertFails` is the
fault oracle for the `INSERT` at line 380 raising a storage-level error.

The `try` body performs: resource-type FK check (404), warehouse FK check
(404, only when `armazem` is truthy), patrimony uniqueness check (409),
insert, commit.  The endpoint has exactly one `except` clause,
`except HTTPException` (rollback and re-raise); the `raise HTTPException(500,
"Erro ao cadastrar item")` after its `raise e` is unreachable, and no
`except Exception` clause exists, so a storage error propagates raw, with no
rollback; the `finally` block closes the connection on every path. -/
def create_item (db : ItemDb) (item : ItemCreate) (insertFails : Bool) : WriteResult :=
  let body : Except PyError ItemDb :=
    if !(db.tiposRecurso.contains item.tiporecursofisico) then
      .error (.httpExc 404 ("Tipo de Recurso " ++ item.tiporecursofisico ++ " não encontrado."))
    else if truthy item.armazem && !(db.armazens.contains (item.armazem.getD "")) then
      .error (.httpExc 404 ("Armazém " ++ item.armazem.getD "" ++ " não encontrado."))
    else if itemExists db item.nropatrimonio then
      .error (.httpExc 409 ("Patrimônio " ++ item.nropatrimonio ++ " já cadastrado."))
    else if insertFails then
      .error (.storageErr "erro de armazenamento durante o INSERT")
    else
      .ok { db with itens := db.itens ++ [{ nropatrimonio := item.nropatrimonio,
                                            statusitem := item.statusitem,
                                            qualidade := item.qualidade,
                                            tamanho := item.tamanho,
                                            tiporecursofisico := item.tiporecursofisico,
                                            armazem := item.armazem }] }
  match body with
  | .ok _ =>
      -- conn.commit(); return; finally: cur.close(); conn.close()
      { outcome := .ok "Item cadastrado com sucesso!",
        rolledBack := false, committed := true, connClosed := true }
  | .error (.httpExc c d) =>
      -- except HTTPException as e: conn.rollback(); raise e
      { outcome := .error (.httpExc c d),
        rolledBack := true, committed := false, connClosed := true }
  | .error (.storageErr m) =>
      -- no matching except clause in create_item: the exception propagates
      -- unchanged; only the finally block runs (cur.close(); conn.close())
      { outcome := .error (.storageErr m),
        rolledBack := false, committed := false, connClosed := true }

/-- The committed database state after a `create_item` call: the insert is
committed only on the success path; every error path leaves the store as it
was (rollback, or connection closed with the transaction never committed). -/
def create_item_state (db : ItemDb) (item : ItemCreate) (insertFails : Bool) : ItemDb :=
  if (create_item db item insertFails).committed then
    { db with itens := db.itens ++ [{ nropatrimonio := item.nropatrimonio,
                                      statusitem := item.statusitem,
                                      qualidade := item.qualidade,
                                      tamanho := item.tamanho,
                                      tiporecursofisico := item.tiporecursofisico,
                                      armazem := item.armazem }] }
  else db

/-- Mirrors `delete_item` (src/main.py lines 453-484): existence check (404),
then `DELETE FROM ITEM WHERE NROPATRIMONIO = %s`.

Modelled from the spec: the `delete_item` SQL file and the allocation table's
foreign key are not under `src/`; per the spec, the store raises a
referential-integrity error exactly when an allocation still references the
item, and the endpoint's `except psycopg2.IntegrityError` clause turns that
into a 409 conflict after rollback.  Returns the outcome and the committed
database state after the call. -/
def delete_item (db : ItemDb) (nropatrimonio : String) : Except PyError String × ItemDb :=
  if !(itemExists db nropatrimonio) then
    (.error (.httpExc 404 "Item não encontrado."), db)
  else if db.alocacoes.contains nropatrimonio then
    -- except psycopg2.IntegrityError: conn.rollback(); raise HTTPException(409, ...)
    (.error (.httpExc 409 "Não é possível excluir este item pois ele está vinculado a outros registros (ex: Alocações)."), db)
  else
    (.ok "Item removido com sucesso!",
     { db with itens := db.itens.filter (fun i => !(i.nropatrimonio == nropatrimonio)) })

/-! ## Item listing with dynamic filters (src/main.py lines 486-549) -/

/-- One `WHERE` clause that `get_items` can append, with its parameter. -/
inductive Clause where
  | eqTipoRecurso (v : String)
  | eqStatusItem (v : String)
  | eqQualidade (v : String)
  | eqArmazem (v : String)
  | nroPatrimonioIlike (v : String)
deriving DecidableEq

/-- `cs.append(clause)` guarded by `if f and f != "all":`. -/
def appendIfFilter (cs : List Clause) (f : Option String) (mk : String → Clause) : List Clause :=
  if truthy f && !(f.getD "" == "all") then cs ++ [mk (f.getD "")] else cs

/-- Mirrors the `where_clauses` construction of `get_items` (src/main.py lines
505-523), in source order: resource type, status, quality, warehouse, search. -/
def build_where_clauses (search tiporecursofisico statusitem qualidade armazem : Option String) :
    List Clause :=
  let cs : List Clause := []
  let cs := appendIfFilter cs tiporecursofisico Clause.eqTipoRecurso
  let cs := appendIfFilter cs statusitem Clause.eqStatusItem
  let cs := appendIfFilter cs qualidade Clause.eqQualidade
  let cs := appendIfFilter cs armazem Clause.eqArmazem
  -- if search: where_clauses.append("i.NROPATRIMONIO ILIKE %s"); params.append(f"%{search}%")
  if truthy search then cs ++ [Clause.nroPatrimonioIlike (search.getD "")] else cs

/-- `hay ILIKE '%pat%'`: case-insensitive substring containment (PostgreSQL
`ILIKE` with the parameter wrapped in `%`, as built at line 523). -/
def containsCI (hay pat : String) : Bool :=
  decide (pat.toLower.toList <:+: hay.toLower.toList)

/-- SQL truth value of one clause at one joined row: `=` on a nullable column
is satisfied only by a non-null equal value; `a.IDARMAZEM` is null for items
without a warehouse, so equality with a parameter fails for them. -/
def evalClause (row : Item) : Clause → Bool
  | .eqTipoRecurso v => row.tiporecursofisico == v
  | .eqStatusItem v => row.statusitem == some v
  | .eqQualidade v => row.qualidade == some v
  | .eqArmazem v => row.armazem == some v
  | .nroPatrimonioIlike v => containsCI row.nropatrimonio v

/-- Mirrors `get_items` (src/main.py lines 486-531), with the source's
parameter list (`search, tiporecursofisico, statusitem, qualidade, tamanho,
armazem`).  Modelled from the spec: the base `filter_items` query is not under
`src/`; per the spec it lists every item row (joined with resource type and
warehouse), and the dynamically appended clauses combine with `AND`. -/
def get_items (db : List Item)
    (search tiporecursofisico statusitem qualidade tamanho armazem : Option String) :
    List Item :=
  db.filter (fun row =>
    (build_where_clauses search tiporecursofisico statusitem qualidade armazem).all
      (evalClause row))

/-- The item-listing predicate exactly as the claim words it: each filter
field that is non-empty and not `"all"` adds an equality condition, a
non-empty search adds a case-insensitive substring match on the patrimony
number, absent or `"all"` filters impose no constraint, and the conditions
combine with logical AND. -/
def item_matches_spec (search tiporecursofisico statusitem qualidade armazem : Option String)
    (row : Item) : Bool :=
  (match tiporecursofisico with
   | none => true
   | some v => v == "" || v == "all" || row.tiporecursofisico == v) &&
  (match statusitem with
   | none => true
   | some v => v == "" || v == "all" || row.statusitem == some v) &&
  (match qualidade with
   | none => true
   | some v => v == "" || v == "all" || row.qualidade == some v) &&
  (match armazem with
   | none => true
   | some v => v == "" || v == "all" || row.armazem == some v) &&
  (match search with
   | none => true
   | some v => v == "" || containsCI row.nropatrimonio v)

/-! ## Requirement batches (src/main.py lines 122-128, 642-708) -/

/-- One requirement line of the batch, mirrors the Pydantic model `RequisitoItem`. -/
structure RequisitoItem where
  id : String
  qtd : Int
deriving DecidableEq

/-- The request body, mirrors the Pydantic model `RequisitosCreate`. -/
structure RequisitosCreate where
  tipos_recurso : List RequisitoItem := []
  recursos_humanos : List RequisitoItem := []
deriving DecidableEq

/-- The slice of the database state that `add_requisitos` touches. -/
structure ReqDb where
  /-- ids of the `PEDIDO` table. -/
  pedidos : List String
  /-- ids of the `DOCUMENTODEREQUISITO` table (1:1 with pedidos). -/
  documentos : List String
  /-- ids of the `TIPORECURSOFISICO` table. -/
  tiposRecurso : List String
  /-- names of the `RECURSOHUMANO` table. -/
  profissoes : List String
  /-- rows (document, resource-type, qty) of `DOC_TIPORECURSO`;
  (document, resource-type) is unique. -/
  docTiporecurso : List (String × String × Int)
  /-- rows (document, profession, qty) of `DOC_RH`; (document, profession) is unique. -/
  docRh : List (String × String × Int)
deriving DecidableEq

/-- The unique key (document, resource-type) already has a row in `DOC_TIPORECURSO`. -/
def hasPairTR (s : ReqDb) (doc tid : String) : Bool :=
  s.docTiporecurso.any (fun r => r.1 == doc && r.2.1 == tid)

/-- The unique key (document, profession) already has a row in `DOC_RH`. -/
def hasPairRH (s : ReqDb) (doc pid : String) : Bool :=
  s.docRh.any (fun r => r.1 == doc && r.2.1 == pid)

/-- Modelled from the spec: `insert_documento_requisito.sql` is not under
`src/`; per the spec the requirement document (1:1 with the pedido, same id)
is created lazily if absent and left alone otherwise. -/
def ensure_documento (doc : String) (s : ReqDb) : ReqDb :=
  if s.documentos.contains doc then s else { s with documentos := s.documentos ++ [doc] }

/-- The physical-requirement loop of `add_requisitos` (src/main.py lines
666-678), acting on the transaction's pending state: for each line, the
resource type must exist (404), and the `INSERT` raises an integrity error —
mapped to a 409 conflict — when the (document, resource-type) key already has
a row visible to the transaction. -/
def insertTRLines (doc : String) : List RequisitoItem → ReqDb → Except PyError ReqDb
  | [], s => .ok s
  | item :: rest, s =>
      if !(s.tiposRecurso.contains item.id) then
        .error (.httpExc 404 ("Tipo de Recurso " ++ item.id ++ " não encontrado."))
      else if hasPairTR s doc item.id then
        .error (.httpExc 409 ("Requisito físico " ++ item.id ++ " já existe para este pedido."))
      else
        insertTRLines doc rest
          { s with docTiporecurso := s.docTiporecurso ++ [(doc, item.id, item.qtd)] }

/-- The human-requirement loop of `add_requisitos` (src/main.py lines
680-692), same shape against the profession registry and `DOC_RH`. -/
def insertRHLines (doc : String) : List RequisitoItem → ReqDb → Except PyError ReqDb
  | [], s => .ok s
  | item :: rest, s =>
      if !(s.profissoes.contains item.id) then
        .error (.httpExc 404 ("Profissão " ++ item.id ++ " não encontrada."))
      else if hasPairRH s doc item.id then
        .error (.httpExc 409 ("Requisito humano " ++ item.id ++ " já existe para este pedido."))
      else
        insertRHLines doc rest
          { s with docRh := s.docRh ++ [(doc, item.id, item.qtd)] }

/-- Mirrors `add_requisitos` (src/main.py lines 642-708): pedido existence
check (404), lazy document creation, the two insert loops on the pending
transaction state, then `conn.commit()`.  Every error path rolls the
transaction back (`conn.rollback()` in the per-line handlers and in the outer
`except` clauses), so it returns the original committed state; only the final
commit publishes the pending state. -/
def add_requisitos (db : ReqDb) (id_pedido : String) (req : RequisitosCreate) :
    Except PyError String × ReqDb :=
  if !(db.pedidos.contains id_pedido) then
    (.error (.httpExc 404 "Pedido não encontrado."), db)
  else
    let s0 := ensure_documento id_pedido db
    match insertTRLines id_pedido req.tipos_recurso s0 with
    | .error e => (.error e, db)
    | .ok s1 =>
        match insertRHLines id_pedido req.recursos_humanos s1 with
        | .error e => (.error e, db)
        | .ok s2 => (.ok "Requisitos adicionados com sucesso!", s2)

/-! ## Connection lifecycle of the listing endpoints (src/main.py lines 161-204) -/

/-- Result of running a read endpoint: the HTTP status raised (or `none` for
success) and whether the database connection was closed by the time the
function exited. -/
structure GetResult where
  raised : Option Nat
  connClosed : Bool
deriving DecidableEq

/-- Mirrors `get_users` (src/main.py lines 161-175).  `queryFails` is the
fault oracle for the query raising.  The body closes the cursor and the
connection and returns; the `except Exception` clause raises
`HTTPException(500)` without closing anything, and there is no `finally`
block. -/
def run_get_users (queryFails : Bool) : GetResult :=
  -- conn = get_db_connection(); cur = conn.cursor(); cur.execute(query)
  if queryFails then
    -- except Exception as e: raise HTTPException(500, ...): conn never closed
    { raised := some 500, connClosed := false }
  else
    -- cur.close(); conn.close(); return [...]
    { raised := none, connClosed := true }

/-- Mirrors `get_managers` (src/main.py lines 192-204).  Its body runs
`cur.close()` and returns — the source contains no `conn.close()` call at all
on the success path (compare line 202 with line 171), and the `except` clause
closes nothing. -/
def run_get_managers (queryFails : Bool) : GetResult :=
  if queryFails then
    { raised := some 500, connClosed := false }
  else
    -- cur.close(); return [...]   (no conn.close())
    { raised := none, connClosed := false }

/-! ## Concrete stores and inputs used by the claim theorems and witnesses -/

def c3_db : ItemDb :=
  { tiposRecurso := ["Som"], armazens := [], itens := [], alocacoes := [] }

def c3_item : ItemCreate :=
  { nropatrimonio := "PAT-001", tiporecursofisico := "Som" }

def c6_db_referenced : ItemDb :=
  { tiposRecurso := ["Som"], armazens := [],
    itens := [{ nropatrimonio := "P1", tiporecursofisico := "Som" }], alocacoes := ["P1"] }

def c6_db_free : ItemDb :=
  { tiposRecurso := ["Som"], armazens := [],
    itens := [{ nropatrimonio := "P1", tiporecursofisico := "Som" }], alocacoes := [] }

def c6_db_empty : ItemDb :=
  { tiposRecurso := ["Som"], armazens := [], itens := [], alocacoes := [] }

def c9_today : PyDate := ⟨2026, 10, 12⟩

def c9_p_yesterday : PedidoCreate :=
  { usuario := "U1", datainicioproposto := some ⟨2026, 10, 11⟩ }

def c9_p_end_before : PedidoCreate :=
  { usuario := "U1", datainicioproposto := some ⟨2026, 11, 1⟩,
    datafimproposto := some ⟨2026, 10, 30⟩ }

def c9_p_end_equal : PedidoCreate :=
  { usuario := "U1", datainicioproposto := some ⟨2026, 11, 1⟩,
    datafimproposto := some ⟨2026, 11, 1⟩ }

def c7_today : PyDate := ⟨2026, 5, 1⟩

def c7_u_cpf : UsuarioCreate :=
  { ndoc := "123.456.789-01", tipodoc := "CPF", email := "ana@example.com", nome := some "Ana" }

def c7_u_cnpj : UsuarioCreate :=
  { ndoc := "12.345.678/0001-90", tipodoc := "CNPJ", email := "acme@example.com",
    razaosocial := some "ACME Ltda" }

def c7_u_badtipo : UsuarioCreate :=
  { ndoc := "12345678901", tipodoc := "RG", email := "ana@example.com" }

def c7_u_short : UsuarioCreate :=
  { ndoc := "123", tipodoc := "CPF", email := "ana@example.com", nome := some "Ana" }

def c8_today : PyDate := ⟨2026, 10, 12⟩

def c8_u_nodate : UsuarioCreate :=
  { ndoc := "12345678901", tipodoc := "CPF", email := "ana@example.com", nome := some "Ana" }

def c2_db : ReqDb :=
  { pedidos := ["PED-2024-001"], documentos := ["PED-2024-001"],
    tiposRecurso := ["Som"], profissoes := [],
    docTiporecurso := [("PED-2024-001", "Som", 1)], docRh := [] }

def c2_req : RequisitosCreate :=
  { tipos_recurso := [⟨"Palco", 1⟩, ⟨"Som", 2⟩], recursos_humanos := [] }

def c2_wreq : RequisitosCreate :=
  { tipos_recurso := [⟨"Som", 2⟩], recursos_humanos := [] }

/-! ## Helper lemmas -/

lemma dateLt_irrefl (d : PyDate) : dateLt d d = false := by
  simp [dateLt]

lemma itemExists_filter_self (l : List Item) (n : String) :
    (l.filter (fun i => !(i.nropatrimonio == n))).any (fun i => i.nropatrimonio == n) = false := by
  rw [List.any_eq_false]
  intro i hi
  have := (List.mem_filter.mp hi).2
  simp_all

lemma hasPairTR_append (s : ReqDb) (x : String × String × Int) (doc tid : String)
    (h : hasPairTR s doc tid = true) :
    hasPairTR { s with docTiporecurso := s.docTiporecurso ++ [x] } doc tid = true := by
  simp only [hasPairTR, List.any_append] at h ⊢
  simp [h]

lemma hasPairRH_append (s : ReqDb) (x : String × String × Int) (doc pid : String)
    (h : hasPairRH s doc pid = true) :
    hasPairRH { s with docRh := s.docRh ++ [x] } doc pid = true := by
  simp only [hasPairRH, List.any_append] at h ⊢
  simp [h]

lemma hasPairTR_ensure (doc : String) (s : ReqDb) (d t : String) :
    hasPairTR (ensure_documento doc s) d t = hasPairTR s d t := by
  unfold ensure_documento hasPairTR
  split <;> rfl

lemma hasPairRH_ensure (doc : String) (s : ReqDb) (d p : String) :
    hasPairRH (ensure_documento doc s) d p = hasPairRH s d p := by
  unfold ensure_documento hasPairRH
  split <;> rfl

lemma ensure_documento_tiposRecurso (doc : String) (s : ReqDb) :
    (ensure_documento doc s).tiposRecurso = s.tiposRecurso := by
  unfold ensure_documento
  split <;> rfl

lemma ensure_documento_profissoes (doc : String) (s : ReqDb) :
    (ensure_documento doc s).profissoes = s.profissoes := by
  unfold ensure_documento
  split <;> rfl

lemma ensure_documento_docRh (doc : String) (s : ReqDb) :
    (ensure_documento doc s).docRh = s.docRh := by
  unfold ensure_documento
  split <;> rfl

lemma hasPairRH_eq_of_docRh (s t : ReqDb) (h : s.docRh = t.docRh) (d p : String) :
    hasPairRH s d p = hasPairRH t d p := by
  unfold hasPairRH
  rw [h]

lemma any_dupTR_append (doc : String) (rest : List RequisitoItem) (s : ReqDb)
    (x : String × String × Int)
    (h : (rest.any fun it => hasPairTR s doc it.id) = true) :
    (rest.any fun it =>
        hasPairTR { s with docTiporecurso := s.docTiporecurso ++ [x] } doc it.id) = true := by
  rw [List.any_eq_true] at h ⊢
  obtain ⟨it, hmem, hp⟩ := h
  exact ⟨it, hmem, hasPairTR_append s x doc it.id hp⟩

lemma any_dupRH_append (doc : String) (rest : List RequisitoItem) (s : ReqDb)
    (x : String × String × Int)
    (h : (rest.any fun it => hasPairRH s doc it.id) = true) :
    (rest.any fun it =>
        hasPairRH { s with docRh := s.docRh ++ [x] } doc it.id) = true := by
  rw [List.any_eq_true] at h ⊢
  obtain ⟨it, hmem, hp⟩ := h
  exact ⟨it, hmem, hasPairRH_append s x doc it.id hp⟩

lemma insertTRLines_error_of_dup (doc : String) (lines : List RequisitoItem) :
    ∀ s : ReqDb, (lines.any fun it => hasPairTR s doc it.id) = true →
      ∃ e, insertTRLines doc lines s = .error e := by
  induction lines with
  | nil =>
      intro s h
      simp at h
  | cons item rest ih =>
      intro s h
      by_cases h1 : item.id ∈ s.tiposRecurso
      · by_cases h2 : hasPairTR s doc item.id = true
        · exact ⟨.httpExc 409 ("Requisito físico " ++ item.id ++ " já existe para este pedido."),
            by simp [insertTRLines, h1, h2]⟩
        · have h2' : hasPairTR s doc item.id = false := by simpa using h2
          have hrest : (rest.any fun it => hasPairTR s doc it.id) = true := by
            rw [List.any_cons, h2'] at h
            simpa using h
          obtain ⟨e, he⟩ := ih _ (any_dupTR_append doc rest s (doc, item.id, item.qtd) hrest)
          exact ⟨e, by simp [insertTRLines, h1, h2', he]⟩
      · exact ⟨.httpExc 404 ("Tipo de Recurso " ++ item.id ++ " não encontrado."),
          by simp [insertTRLines, h1]⟩

lemma insertRHLines_error_of_dup (doc : String) (lines : List RequisitoItem) :
    ∀ s : ReqDb, (lines.any fun it => hasPairRH s doc it.id) = true →
      ∃ e, insertRHLines doc lines s = .error e := by
  induction lines with
  | nil =>
      intro s h
      simp at h
  | cons item rest ih =>
      intro s h
      by_cases h1 : item.id ∈ s.profissoes
      · by_cases h2 : hasPairRH s doc item.id = true
        · exact ⟨.httpExc 409 ("Requisito humano " ++ item.id ++ " já existe para este pedido."),
            by simp [insertRHLines, h1, h2]⟩
        · have h2' : hasPairRH s doc item.id = false := by simpa using h2
          have hrest : (rest.any fun it => hasPairRH s doc it.id) = true := by
            rw [List.any_cons, h2'] at h
            simpa using h
          obtain ⟨e, he⟩ := ih _ (any_dupRH_append doc rest s (doc, item.id, item.qtd) hrest)
          exact ⟨e, by simp [insertRHLines, h1, h2', he]⟩
      · exact ⟨.httpExc 404 ("Profissão " ++ item.id ++ " não encontrada."),
          by simp [insertRHLines, h1]⟩

lemma insertTRLines_ok_fields (doc : String) (lines : List RequisitoItem) :
    ∀ s s' : ReqDb, insertTRLines doc lines s = .ok s' →
      s'.docRh = s.docRh ∧ s'.profissoes = s.profissoes ∧ s'.tiposRecurso = s.tiposRecurso := by
  induction lines with
  | nil =>
      intro s s' h
      simp [insertTRLines] at h
      subst h
      exact ⟨rfl, rfl, rfl⟩
  | cons item rest ih =>
      intro s s' h
      by_cases h1 : item.id ∈ s.tiposRecurso
      · by_cases h2 : hasPairTR s doc item.id = true
        · simp [insertTRLines, h1, h2] at h
        · have h2' : hasPairTR s doc item.id = false := by simpa using h2
          simp only [insertTRLines] at h
          rw [if_neg (by simp [h1]), if_neg (by simp [h2'])] at h
          have h3 := ih _ _ h
          simpa using h3
      · simp [insertTRLines, h1] at h

lemma insertTRLines_error_409 (doc : String) (lines : List RequisitoItem) :
    ∀ (s : ReqDb) (e : PyError),
      (∀ it ∈ lines, s.tiposRecurso.contains it.id = true) →
      insertTRLines doc lines s = .error e →
      ∃ d, e = .httpExc 409 d := by
  induction lines with
  | nil =>
      intro s e _ h
      simp [insertTRLines] at h
  | cons item rest ih =>
      intro s e hall h
      have h1 : item.id ∈ s.tiposRecurso := by
        simpa using hall item (List.mem_cons_self item rest)
      by_cases h2 : hasPairTR s doc item.id = true
      · simp [insertTRLines, h1, h2] at h
        exact ⟨_, h.symm⟩
      · have h2' : hasPairTR s doc item.id = false := by simpa using h2
        simp only [insertTRLines] at h
        rw [if_neg (by simp [h1]), if_neg (by simp [h2'])] at h
        refine ih _ e ?_ h
        intro it hit
        exact hall it (List.mem_cons_of_mem item hit)

lemma insertRHLines_error_409 (doc : String) (lines : List RequisitoItem) :
    ∀ (s : ReqDb) (e : PyError),
      (∀ it ∈ lines, s.profissoes.contains it.id = true) →
      insertRHLines doc lines s = .error e →
      ∃ d, e = .httpExc 409 d := by
  induction lines with
  | nil =>
      intro s e _ h
      simp [insertRHLines] at h
  | cons item rest ih =>
      intro s e hall h
      have h1 : item.id ∈ s.profissoes := by
        simpa using hall item (List.mem_cons_self item rest)
      by_cases h2 : hasPairRH s doc item.id = true
      · simp [insertRHLines, h1, h2] at h
        exact ⟨_, h.symm⟩
      · have h2' : hasPairRH s doc item.id = false := by simpa using h2
        simp only [insertRHLines] at h
        rw [if_neg (by simp [h1]), if_neg (by simp [h2'])] at h
        refine ih _ e ?_ h
        intro it hit
        exact hall it (List.mem_cons_of_mem item hit)

lemma check_fields_ok_iff (today : PyDate) (u u' : UsuarioCreate) :
    check_fields today u = .ok u' ↔
      (u = u' ∧ ((cpfOk u ∧ rgOk u) ∨ cnpjOk u) ∧ check_age today u.datanasc = .ok ()) := by
  by_cases h1 : u.tipodoc = "CPF"
  · have h2 : u.tipodoc ≠ "CNPJ" := by rw [h1]; decide
    have hb1 : (u.tipodoc == "CPF") = true := beq_iff_eq.mpr h1
    by_cases hd : (digitsOnly u.ndoc).length = 11
    · by_cases hn : truthy u.nome = true
      · by_cases hr : truthy u.rg = true
        · by_cases hlen : 7 ≤ (digitsOnly (u.rg.getD "")).length ∧
              (digitsOnly (u.rg.getD "")).length ≤ 9
          · have hdec := decide_eq_true hlen
            cases hca : check_age today u.datanasc with
            | ok v =>
                cases v
                simp [check_fields, cpfOk, rgOk, cnpjOk, h1, h2, hb1, hd, hn, hr, hlen, hdec, hca]
            | error e =>
                simp [check_fields, cpfOk, rgOk, cnpjOk, h1, h2, hb1, hd, hn, hr, hlen, hdec, hca]
          · have hdec := decide_eq_false hlen
            simp [check_fields, cpfOk, rgOk, cnpjOk, h1, h2, hb1, hd, hn, hr, hlen, hdec]
        · have hr' : truthy u.rg = false := by simpa using hr
          cases hca : check_age today u.datanasc with
          | ok v =>
              cases v
              simp [check_fields, cpfOk, rgOk, cnpjOk, h1, h2, hb1, hd, hn, hr', hca]
          | error e =>
              simp [check_fields, cpfOk, rgOk, cnpjOk, h1, h2, hb1, hd, hn, hr', hca]
      · have hn' : truthy u.nome = false := by simpa using hn
        simp [check_fields, cpfOk, cnpjOk, h1, h2, hb1, hd, hn']
    · have hd' : ((digitsOnly u.ndoc).length != 11) = true := bne_iff_ne.mpr hd
      simp [check_fields, cpfOk, cnpjOk, h1, h2, hb1, hd, hd']
  · have hb1 : (u.tipodoc == "CPF") = false := beq_eq_false_iff_ne.mpr h1
    by_cases h2 : u.tipodoc = "CNPJ"
    · have hb2 : (u.tipodoc == "CNPJ") = true := beq_iff_eq.mpr h2
      by_cases hd : (digitsOnly u.ndoc).length = 14
      · by_cases hrz : truthy u.razaosocial = true
        · cases hca : check_age today u.datanasc with
          | ok v =>
              cases v
              simp [check_fields, cpfOk, rgOk, cnpjOk, h1, h2, hb1, hb2, hd, hrz, hca]
          | error e =>
              simp [check_fields, cpfOk, rgOk, cnpjOk, h1, h2, hb1, hb2, hd, hrz, hca]
        · have hrz' : truthy u.razaosocial = false := by simpa using hrz
          simp [check_fields, cpfOk, cnpjOk, h1, h2, hb1, hb2, hd, hrz']
      · have hd' : ((digitsOnly u.ndoc).length != 14) = true := bne_iff_ne.mpr hd
        simp [check_fields, cpfOk, cnpjOk, h1, h2, hb1, hb2, hd, hd']
    · have hb2 : (u.tipodoc == "CNPJ") = false := beq_eq_false_iff_ne.mpr h2
      simp [check_fields, cpfOk, cnpjOk, h1, h2, hb1, hb2]

/-! ## Claim theorems -/

/-- C1: the claim asserts that sequentially generated request ids are strictly
monotonically increasing within a calendar year, including beyond suffix 999.
The code violates this: from a store holding `PED-2024-999` it generates
`PED-2024-1000`, but from the store then holding both ids the lexicographic
`ORDER BY IDPEDIDO DESC` still selects `PED-2024-999` as the highest id, so
the very next call generates `PED-2024-1000` again — a duplicate of an
existing id, not a strictly greater one. -/
theorem c1_idpedido_duplicate_beyond_999 :
    next_idpedido 2024 ["PED-2024-999"] = "PED-2024-1000" ∧
    next_idpedido 2024 ["PED-2024-999", "PED-2024-1000"] = "PED-2024-1000" ∧
    "PED-2024-1000" ∈ ["PED-2024-999", "PED-2024-1000"] := by
  decide
/-- C3: the claim asserts every error exit of item creation performs a
rollback before the error surfaces.  The code violates this: `create_item`
has no `except Exception` clause (its generic 500 handler is unreachable dead
code after `raise e`), so a storage-level failure during the `INSERT`
propagates to the caller with `rolledBack = false`; only the `finally` block
runs, closing the connection with the transaction never committed. -/
theorem c3_create_item_storage_error_no_rollback :
    (create_item c3_db c3_item true).outcome
        = .error (.storageErr "erro de armazenamento durante o INSERT") ∧
    (create_item c3_db c3_item true).rolledBack = false ∧
    (create_item c3_db c3_item true).committed = false ∧
    create_item_state c3_db c3_item true = c3_db ∧
    (create_item c3_db c3_item false).outcome = .ok "Item cadastrado com sucesso!" := by
  decide

/-- C4: the claim asserts every operation closes its connection on every exit
path, naming the user-listing and manager-listing operations.  The code
violates this: `get_managers` returns its successful response without ever
calling `conn.close()` (its body only closes the cursor), and `get_users`
raises its 500 error with the connection still open (it has no `finally`
block). -/
theorem c4_listing_endpoints_leak_connection :
    (run_get_managers false).raised = none ∧
    (run_get_managers false).connClosed = false ∧
    (run_get_users true).raised = some 500 ∧
    (run_get_users true).connClosed = false ∧
    (run_get_users false).connClosed = true := by
  decide

/-- C6: deleting an item referenced by an allocation fails with the 409
conflict and the store is unchanged; deleting an existing unreferenced item
succeeds and the item is no longer found afterwards; deleting a nonexistent
item reports 404 not-found. -/
theorem c6_delete_item_behavior (db : ItemDb) (n : String) :
    (itemExists db n = true → db.alocacoes.contains n = true →
        delete_item db n = (.error (.httpExc 409 "Não é possível excluir este item pois ele está vinculado a outros registros (ex: Alocações)."), db)) ∧
    (itemExists db n = true → db.alocacoes.contains n = false →
        (delete_item db n).1 = .ok "Item removido com sucesso!" ∧
        itemExists (delete_item db n).2 n = false) ∧
    (itemExists db n = false →
        delete_item db n = (.error (.httpExc 404 "Item não encontrado."), db)) := by
  refine ⟨?_, ?_, ?_⟩
  · intro h1 h2
    have h2' : n ∈ db.alocacoes := by simpa using h2
    simp [delete_item, h1, h2']
  · intro h1 h2
    have h2' : n ∉ db.alocacoes := by simpa using h2
    constructor
    · simp [delete_item, h1, h2']
    · simp only [delete_item, h1, Bool.not_true, Bool.false_eq_true, if_false]
      rw [if_neg (by simpa using h2')]
      exact itemExists_filter_self db.itens n
  · intro h1
    simp [delete_item, h1]
/-- Witness for the C6 theorem at concrete stores. -/
theorem c6_delete_item_behavior_witness :
    delete_item c6_db_referenced "P1"
        = (.error (.httpExc 409 "Não é possível excluir este item pois ele está vinculado a outros registros (ex: Alocações)."), c6_db_referenced) ∧
    ((delete_item c6_db_free "P1").1 = .ok "Item removido com sucesso!" ∧
        itemExists (delete_item c6_db_free "P1").2 "P1" = false) ∧
    delete_item c6_db_empty "P1" = (.error (.httpExc 404 "Item não encontrado."), c6_db_empty) :=
  ⟨(c6_delete_item_behavior c6_db_referenced "P1").1 (by decide) (by decide),
   (c6_delete_item_behavior c6_db_free "P1").2.1 (by decide) (by decide),
   (c6_delete_item_behavior c6_db_empty "P1").2.2 (by decide)⟩

/-- C9: a proposed start date earlier than today is rejected; when both dates
are present an end date before the start date is rejected; an end date equal
to the start date is accepted (when the start date itself is acceptable); an
absent start or end date imposes no date constraint. -/
theorem c9_check_dates_rules (today : PyDate) (p : PedidoCreate) :
    (∀ di, p.datainicioproposto = some di → dateLt di today = true →
        check_dates today p = .error "A data de início não pode ser no passado.") ∧
    (∀ di df, p.datainicioproposto = some di → p.datafimproposto = some df →
        dateLt df di = true → ∃ e, check_dates today p = .error e) ∧
    (∀ di, p.datainicioproposto = some di → p.datafimproposto = some di →
        dateLt di today = false → check_dates today p = .ok p) ∧
    (p.datainicioproposto = none → check_dates today p = .ok p) ∧
    (∀ di, p.datainicioproposto = some di → p.datafimproposto = none →
        dateLt di today = false → check_dates today p = .ok p) := by
  refine ⟨?_, ?_, ?_, ?_, ?_⟩
  · intro di hdi hlt
    simp [check_dates, hdi, hlt, Option.elim]
  · intro di df hdi hdf hlt
    by_cases hpast : dateLt di today
    · exact ⟨"A data de início não pode ser no passado.",
        by simp [check_dates, hdi, hpast, Option.elim]⟩
    · exact ⟨"A data de fim deve ser após a data de início.",
        by simp [check_dates, hdi, hdf, hlt, hpast, Option.elim]⟩
  · intro di hdi hdf hlt
    simp [check_dates, hdi, hdf, hlt, dateLt_irrefl, Option.elim]
  · intro h
    simp [check_dates, h, Option.elim]
  · intro di hdi hdf hlt
    simp [check_dates, hdi, hdf, hlt, Option.elim]
/-- Witness for the C9 theorem at concrete dates (today = 2026-10-12). -/
theorem c9_check_dates_rules_witness :
    check_dates c9_today c9_p_yesterday = .error "A data de início não pode ser no passado." ∧
    (∃ e, check_dates c9_today c9_p_end_before = .error e) ∧
    check_dates c9_today c9_p_end_equal = .ok c9_p_end_equal ∧
    check_dates c9_today { usuario := "U1" } = .ok { usuario := "U1" } :=
  ⟨(c9_check_dates_rules c9_today c9_p_yesterday).1 ⟨2026, 10, 11⟩ rfl (by decide),
   (c9_check_dates_rules c9_today c9_p_end_before).2.1 ⟨2026, 11, 1⟩ ⟨2026, 10, 30⟩ rfl rfl
     (by decide),
   (c9_check_dates_rules c9_today c9_p_end_equal).2.2.1 ⟨2026, 11, 1⟩ rfl rfl (by decide),
   (c9_check_dates_rules c9_today { usuario := "U1" }).2.2.2.1 rfl⟩

lemma all_appendIfFilter (cs : List Clause) (f : Option String) (mk : String → Clause)
    (p : Clause → Bool) :
    (appendIfFilter cs f mk).all p
      = (cs.all p &&
          match f with
          | none => true
          | some v => v == "" || v == "all" || p (mk v)) := by
  cases f with
  | none => simp [appendIfFilter, truthy]
  | some v =>
      by_cases h1 : v = ""
      · simp [appendIfFilter, truthy, h1]
      · by_cases h2 : v = "all"
        · simp [appendIfFilter, truthy, h1, h2]
        · have hb1 : (v == "") = false := beq_eq_false_iff_ne.mpr h1
          have hb2 : (v == "all") = false := beq_eq_false_iff_ne.mpr h2
          simp [appendIfFilter, truthy, h1, h2, hb1, hb2, List.all_append]

lemma build_where_clauses_eval (search trf st q arm : Option String) (row : Item) :
    (build_where_clauses search trf st q arm).all (evalClause row)
      = item_matches_spec search trf st q arm row := by
  unfold build_where_clauses item_matches_spec
  have hsearch : ∀ cs : List Clause,
      (if truthy search then cs ++ [Clause.nroPatrimonioIlike (search.getD "")] else cs).all
          (evalClause row)
        = (cs.all (evalClause row) &&
            match search with
            | none => true
            | some v => v == "" || containsCI row.nropatrimonio v) := by
    intro cs
    cases search with
    | none => simp [truthy]
    | some v =>
        by_cases h1 : v = ""
        · simp [truthy, h1]
        · have hb1 : (v == "") = false := beq_eq_false_iff_ne.mpr h1
          simp [truthy, h1, hb1, List.all_append, evalClause]
  rw [hsearch]
  rw [all_appendIfFilter, all_appendIfFilter, all_appendIfFilter, all_appendIfFilter]
  simp only [List.all_nil, Bool.true_and, evalClause, Bool.and_assoc]

/-- C5: the item-listing result is exactly the rows satisfying the logical
AND of the supplied filters: each non-empty, non-"all" filter field adds an
equality condition, a non-empty search adds a case-insensitive substring
match on the patrimony number, and absent or "all" filters impose no
constraint. -/
theorem c5_get_items_conjunction_of_filters (db : List Item)
    (search tiporecursofisico statusitem qualidade tamanho armazem : Option String) :
    get_items db search tiporecursofisico statusitem qualidade tamanho armazem
      = db.filter (item_matches_spec search tiporecursofisico statusitem qualidade armazem) := by
  unfold get_items
  exact List.filter_congr
    (fun row _ => build_where_clauses_eval search tiporecursofisico statusitem qualidade armazem row)

/-- C10: the `tamanho` query parameter of the item-listing endpoint is
accepted but never used to build a filter condition, so two calls differing
only in `tamanho` return the same list. -/
theorem c10_tamanho_no_effect (db : List Item)
    (search tiporecursofisico statusitem qualidade armazem t1 t2 : Option String) :
    get_items db search tiporecursofisico statusitem qualidade t1 armazem
      = get_items db search tiporecursofisico statusitem qualidade t2 armazem := rfl

/-- C7: user validation strips non-digits from the document number and
succeeds only for CPF with 11 digits and a non-empty name, or CNPJ with 14
digits and a non-empty company name; any other document type, digit count, or
missing required field fails with a descriptive validation error. -/
theorem c7_check_fields_document_rules (today : PyDate) (u : UsuarioCreate) :
    (∀ u', check_fields today u = .ok u' → u = u' ∧ (cpfOk u ∨ cnpjOk u)) ∧
    (u.tipodoc ≠ "CPF" → u.tipodoc ≠ "CNPJ" →
        check_fields today u = .error "Tipo de documento deve ser CPF ou CNPJ.") ∧
    (u.tipodoc = "CPF" → (digitsOnly u.ndoc).length ≠ 11 →
        check_fields today u = .error "CPF deve conter 11 dígitos.") ∧
    (u.tipodoc = "CPF" → (digitsOnly u.ndoc).length = 11 → truthy u.nome = false →
        check_fields today u = .error "Nome é obrigatório para CPF.") ∧
    (u.tipodoc = "CNPJ" → (digitsOnly u.ndoc).length ≠ 14 →
        check_fields today u = .error "CNPJ deve conter 14 dígitos.") ∧
    (u.tipodoc = "CNPJ" → (digitsOnly u.ndoc).length = 14 → truthy u.razaosocial = false →
        check_fields today u = .error "Razão Social é obrigatória para CNPJ.") := by
  refine ⟨?_, ?_, ?_, ?_, ?_, ?_⟩
  · intro u' h
    have h' := (check_fields_ok_iff today u u').mp h
    exact ⟨h'.1, h'.2.1.imp And.left id⟩
  · intro h1 h2
    have hb1 : (u.tipodoc == "CPF") = false := beq_eq_false_iff_ne.mpr h1
    have hb2 : (u.tipodoc == "CNPJ") = false := beq_eq_false_iff_ne.mpr h2
    simp [check_fields, hb1, hb2]
  · intro h1 hd
    have hb1 : (u.tipodoc == "CPF") = true := beq_iff_eq.mpr h1
    have hd' : ((digitsOnly u.ndoc).length != 11) = true := bne_iff_ne.mpr hd
    simp [check_fields, hb1, hd']
  · intro h1 hd hn
    have hb1 : (u.tipodoc == "CPF") = true := beq_iff_eq.mpr h1
    simp [check_fields, hb1, hd, hn]
  · intro h2 hd
    have hb1 : (u.tipodoc == "CPF") = false :=
      beq_eq_false_iff_ne.mpr (by rw [h2]; decide)
    have hb2 : (u.tipodoc == "CNPJ") = true := beq_iff_eq.mpr h2
    have hd' : ((digitsOnly u.ndoc).length != 14) = true := bne_iff_ne.mpr hd
    simp [check_fields, hb1, hb2, hd']
  · intro h2 hd hrz
    have hb1 : (u.tipodoc == "CPF") = false :=
      beq_eq_false_iff_ne.mpr (by rw [h2]; decide)
    have hb2 : (u.tipodoc == "CNPJ") = true := beq_iff_eq.mpr h2
    simp [check_fields, hb1, hb2, hd, hrz]

/-- Witness for the C7 theorem at concrete users. -/
theorem c7_check_fields_document_rules_witness :
    (c7_u_cpf = c7_u_cpf ∧ (cpfOk c7_u_cpf ∨ cnpjOk c7_u_cpf)) ∧
    (c7_u_cnpj = c7_u_cnpj ∧ (cpfOk c7_u_cnpj ∨ cnpjOk c7_u_cnpj)) ∧
    check_fields c7_today c7_u_badtipo = .error "Tipo de documento deve ser CPF ou CNPJ." ∧
    check_fields c7_today c7_u_short = .error "CPF deve conter 11 dígitos." :=
  ⟨(c7_check_fields_document_rules c7_today c7_u_cpf).1 c7_u_cpf (by decide),
   (c7_check_fields_document_rules c7_today c7_u_cnpj).1 c7_u_cnpj (by decide),
   (c7_check_fields_document_rules c7_today c7_u_badtipo).2.1 (by decide) (by decide),
   (c7_check_fields_document_rules c7_today c7_u_short).2.2.1 rfl (by decide)⟩

/-- C8: when a birth date is present, validation computes the age accounting
for month and day and rejects exactly the users younger than 18: a birth date
18 years minus one day before today yields age 17 and fails, a birth date
exactly 18 years before today yields age 18 and passes, and an absent birth
date imposes no constraint. -/
theorem c8_age_validation (today : PyDate) (u : UsuarioCreate) :
    (u.datanasc = none → check_age today u.datanasc = .ok ()) ∧
    (∀ d, check_age today (some d) = .ok () ↔ 18 ≤ idade today d) ∧
    (cpfOk u → rgOk u →
        (check_fields today u = .ok u ↔ check_age today u.datanasc = .ok ())) ∧
    (18 ≤ today.year →
        check_age today (some (minusYears today 18)) = .ok () ∧
        check_age today (some (nextDay (minusYears today 18))) =
          .error "Usuário deve ter pelo menos 18 anos.") := by
  refine ⟨?_, ?_, ?_, ?_⟩
  · intro h
    simp [check_age, h]
  · intro d
    by_cases h : idade today d < 18 <;> simp [check_age, h] <;> omega
  · intro hcpf hrg
    rw [check_fields_ok_iff]
    constructor
    · exact fun h => h.2.2
    · exact fun h => ⟨rfl, Or.inl ⟨hcpf, hrg⟩, h⟩
  · intro h18
    have hsame : mdLt today.month today.day today.month today.day = false := by
      simp [mdLt]
    have hage18 : idade today (minusYears today 18) = 18 := by
      simp [idade, minusYears, hsame]
      omega
    have hage17 : idade today (nextDay (minusYears today 18)) = 17 := by
      unfold nextDay minusYears
      by_cases hc1 : today.day < daysInMonth (today.year - 18) today.month
      · have hmd : mdLt today.month today.day today.month (today.day + 1) = true := by
          simp [mdLt]
        simp only [hc1, if_true]
        simp [idade, hmd]
        omega
      · by_cases hc2 : today.month < 12
        · have hmd : mdLt today.month today.day (today.month + 1) 1 = true := by
            simp [mdLt]

          simp only [hc1, if_false, hc2, if_true]
          simp [idade, hmd]
          omega
        · have hmge : 12 ≤ today.month := by omega
          have hmd : mdLt today.month today.day 1 1 = false := by
            simp [mdLt]
            omega
          simp only [hc1, if_false, hc2]
          simp [idade, hmd]
          omega
    constructor
    · simp [check_age, hage18]
    · simp [check_age, hage17]

/-- Witness for the C8 theorem at today = 2026-10-12: birth date 2008-10-12
(exactly 18 years before) passes, birth date 2008-10-13 (18 years minus one
day before) fails, and an absent birth date passes. -/
theorem c8_age_validation_witness :
    check_age c8_today (some (minusYears c8_today 18)) = .ok () ∧
    check_age c8_today (some (nextDay (minusYears c8_today 18))) =
      .error "Usuário deve ter pelo menos 18 anos." ∧
    check_age c8_today none = .ok () ∧
    minusYears c8_today 18 = ⟨2008, 10, 12⟩ ∧
    nextDay (minusYears c8_today 18) = ⟨2008, 10, 13⟩ :=
  ⟨((c8_age_validation c8_today c8_u_nodate).2.2.2 (by decide)).1,
   ((c8_age_validation c8_today c8_u_nodate).2.2.2 (by decide)).2,
   (c8_age_validation c8_today c8_u_nodate).1 rfl,
   by decide, by decide⟩

/-- C2 counterexample: a call on a store whose pedido `PED-2024-001` already
has the stored pair (PED-2024-001, Som), with the batch [Palco, Som], does
contain a line duplicating a stored pair, yet fails with the 404 not-found
error for `Palco` (its resource type is not registered) — not with a 409
conflict as the claim states.  The store is left unchanged. -/
theorem c2_duplicate_not_conflict_counterexample :
    ((c2_req.tipos_recurso.any fun it => hasPairTR c2_db "PED-2024-001" it.id) = true) ∧
    add_requisitos c2_db "PED-2024-001" c2_req
      = (.error (.httpExc 404 "Tipo de Recurso Palco não encontrado."), c2_db) := by
  decide

/-- C2 (amended): when some requirement line of the batch duplicates an
already-stored (document, resource) pair, the call always fails and commits
nothing — the returned store is the original one; and when additionally the
pedido exists and every line of the batch references a registered resource
type / profession, the failure is specifically a 409 conflict. -/
theorem c2_requisitos_batch_atomic (db : ReqDb) (id_pedido : String) (req : RequisitosCreate)
    (hdup : (req.tipos_recurso.any fun it => hasPairTR db id_pedido it.id) = true ∨
            (req.recursos_humanos.any fun it => hasPairRH db id_pedido it.id) = true) :
    (∃ e, (add_requisitos db id_pedido req).1 = .error e) ∧
    (add_requisitos db id_pedido req).2 = db ∧
    (db.pedidos.contains id_pedido = true →
      (∀ it ∈ req.tipos_recurso, db.tiposRecurso.contains it.id = true) →
      (∀ it ∈ req.recursos_humanos, db.profissoes.contains it.id = true) →
      ∃ d, (add_requisitos db id_pedido req).1 = .error (.httpExc 409 d)) := by
  by_cases hped : db.pedidos.contains id_pedido = true
  · have hm : id_pedido ∈ db.pedidos := by simpa using hped
    have key : ∃ e, add_requisitos db id_pedido req = (.error e, db) ∧
        ((∀ it ∈ req.tipos_recurso, db.tiposRecurso.contains it.id = true) →
         (∀ it ∈ req.recursos_humanos, db.profissoes.contains it.id = true) →
         ∃ d, e = .httpExc 409 d) := by
      cases hres : insertTRLines id_pedido req.tipos_recurso (ensure_documento id_pedido db) with
      | error e1 =>
          refine ⟨e1, by simp [add_requisitos, hm, hres], ?_⟩
          intro hallTR _
          refine insertTRLines_error_409 id_pedido req.tipos_recurso _ e1 ?_ hres
          intro it hit
          rw [ensure_documento_tiposRecurso]
          exact hallTR it hit
      | ok s1 =>
          have hdupRH : (req.recursos_humanos.any fun it => hasPairRH db id_pedido it.id)
              = true := by
            rcases hdup with hTR | hRH
            · exfalso
              have hTR0 : (req.tipos_recurso.any fun it =>
                  hasPairTR (ensure_documento id_pedido db) id_pedido it.id) = true := by
                have hfun : (fun (it : RequisitoItem) =>
                      hasPairTR (ensure_documento id_pedido db) id_pedido it.id)
                    = (fun (it : RequisitoItem) => hasPairTR db id_pedido it.id) :=
                  funext (fun (it : RequisitoItem) => hasPairTR_ensure id_pedido db id_pedido it.id)
                rw [hfun]
                exact hTR
              obtain ⟨e, he⟩ :=
                insertTRLines_error_of_dup id_pedido req.tipos_recurso _ hTR0
              rw [he] at hres
              simp at hres
            · exact hRH
          have hs1rh : s1.docRh = db.docRh := by
            have h3 := (insertTRLines_ok_fields id_pedido req.tipos_recurso _ _ hres).1
            rw [h3, ensure_documento_docRh]
          have hdupRH1 : (req.recursos_humanos.any fun it => hasPairRH s1 id_pedido it.id)
              = true := by
            have hfun : (fun (it : RequisitoItem) => hasPairRH s1 id_pedido it.id)
                = (fun (it : RequisitoItem) => hasPairRH db id_pedido it.id) :=
              funext (fun (it : RequisitoItem) => hasPairRH_eq_of_docRh s1 db hs1rh id_pedido it.id)
            rw [hfun]
            exact hdupRH
          obtain ⟨e2, he2⟩ :=
            insertRHLines_error_of_dup id_pedido req.recursos_humanos s1 hdupRH1
          refine ⟨e2, by simp [add_requisitos, hm, hres, he2], ?_⟩
          intro _ hallRH
          refine insertRHLines_error_409 id_pedido req.recursos_humanos s1 e2 ?_ he2
          intro it hit
          have hprof : s1.profissoes = db.profissoes := by
            have h3 := (insertTRLines_ok_fields id_pedido req.tipos_recurso _ _ hres).2.1
            rw [h3, ensure_documento_profissoes]
          rw [hprof]
          exact hallRH it hit
    obtain ⟨e, heq, h409⟩ := key
    refine ⟨⟨e, by rw [heq]⟩, by rw [heq], ?_⟩
    intro _ hallTR hallRH
    obtain ⟨d, hd⟩ := h409 hallTR hallRH
    exact ⟨d, by rw [heq, hd]⟩
  · have hped' : db.pedidos.contains id_pedido = false := by simpa using hped
    have hm : ¬ id_pedido ∈ db.pedidos := by simpa using hped'
    refine ⟨⟨.httpExc 404 "Pedido não encontrado.", by simp [add_requisitos, hm]⟩,
            by simp [add_requisitos, hm], ?_⟩
    intro hc
    rw [hped'] at hc
    cases hc

/-- Witness for the C2 amended theorem: a one-line batch duplicating the
stored pair (PED-2024-001, Som), every line referencing a registered resource
type, fails with a 409 conflict and leaves the store unchanged. -/
theorem c2_requisitos_batch_atomic_witness :
    (∃ e, (add_requisitos c2_db "PED-2024-001" c2_wreq).1 = .error e) ∧
    (add_requisitos c2_db "PED-2024-001" c2_wreq).2 = c2_db ∧
    (∃ d, (add_requisitos c2_db "PED-2024-001" c2_wreq).1 = .error (.httpExc 409 d)) := by
  have h := c2_requisitos_batch_atomic c2_db "PED-2024-001" c2_wreq (Or.inl (by decide))
  exact ⟨h.1, h.2.1, h.2.2 (by decide) (by decide) (by decide)⟩

end ReservaFacil
